import Mathlib

/-!
Verification of the VVJS slideshow runtime engine.

This development embeds the slide-index state machine, autoplay scheduler,
transition completion machinery and swipe-gesture recognizer of the VVJS
slideshow (SlideshowCore in slideshow-core.js, SlideshowTransitions in the
transitions module, SlideshowEvents in the events module) as pure Lean
functions.  Custom DOM events are modelled as an explicit event trace:
dispatching an event is synchronous in the DOM, so a dispatch appends the
event to the trace and then inlines the effects of the statically known
listeners (the transitions module listens to slideChanging; the core
listens to transitionComplete; the remaining listeners - navigation,
accessibility, progress, deep link - only read state and are therefore
trace-irrelevant).  Timers are modelled by an armed flag plus explicit
fire actions.
-/

namespace VVJS

/-- The four transition kinds accepted by the data-transition attribute. -/
inductive TransitionType where
  | instant
  | crossfadeClassic
  | crossfadeStaged
  | crossfadeDynamic
deriving DecidableEq, Repr

/-- A transition kind is a crossfade variant iff it is not instant. -/
def TransitionType.isCrossfade : TransitionType → Bool
  | .instant => false
  | _ => true

/-- Custom events dispatched on the slideshow container, with the payload
fields the modules actually read.  The swipe event carries the direction
(true = right) and the absolute horizontal distance. -/
inductive Event where
  | slideChanging (fromIndex toIndex : Nat)
  | slideChanged (slideIndex totalSlides : Nat)
  | transitionComplete (slideIndex : Nat) (transitionType : TransitionType)
  | autoSlideStarted
  | autoSlideStopped
  | pauseToggled (isPaused : Bool)
  | swipe (directionRight : Bool) (distance : ℚ)
deriving DecidableEq, Repr

/-- The per-job bookkeeping of setupTransitionCompletion: the closure flag
transitionEnded, whether the fallback setTimeout is still armed, and
whether the transitionend listener is still attached. -/
structure TransitionJob where
  transitionEnded : Bool
  timeoutArmed : Bool
  listenerAttached : Bool
deriving DecidableEq, Repr

/-- A freshly armed transition job: not ended, timeout armed, listener
attached (the state set up at the end of setupTransitionCompletion). -/
def freshJob : TransitionJob :=
  { transitionEnded := false, timeoutArmed := true, listenerAttached := true }

/-- The combined state of a wired slideshow instance: the SlideshowCore
fields (slideTime, totalSlides, loopingEnabled, slideIndex,
currentSlideIndex, isPaused, isVisible, autoSlideIntervalId modelled as
the flag autoSlideActive) together with the transition kind (the shared
container.dataset.transition attribute, kept equal to the transitions
module field transitionType by the code) and the transitions module field
activeTransition. -/
structure SystemState where
  slideTime : Int
  totalSlides : Nat
  loopingEnabled : Bool
  transitionType : TransitionType
  slideIndex : Nat
  currentSlideIndex : Nat
  isPaused : Bool
  isVisible : Bool
  autoSlideActive : Bool
  activeTransition : Option TransitionJob
deriving DecidableEq, Repr

/-- Models the JavaScript idiom parseInt(attr, 10) || dflt: a missing or
unparseable attribute yields NaN, and both NaN and 0 are falsy, so the
default applies in those cases. -/
def jsParseIntOr (attr : Option Int) (dflt : Int) : Int :=
  match attr with
  | none => dflt
  | some n => if n = 0 then dflt else n

/-- The data attributes of the container read by the constructor:
data-time, data-start-index (as parseInt results, none = NaN),
data-enable-looping, data-static (raw strings), data-transition. -/
structure Dataset where
  time : Option Int
  startIndex : Option Int
  enableLooping : Option String
  static : Option String
  transition : Option TransitionType
deriving DecidableEq, Repr

/-- The SlideshowCore constructor (slideshow-core.js lines 16-36) followed
by init(), which does not change any modelled field: slideTime is
parseInt(data-time) || 5000, looping is enabled unless data-enable-looping
is the string false, the start index is parseInt(data-start-index) || 1
clamped by Math.max(1, Math.min(startIndex, totalSlides)), paused iff
data-static is the string true, initially visible with no timer armed.
The transitions module constructor contributes activeTransition = null. -/
def construct (ds : Dataset) (totalSlides : Nat) : SystemState :=
  let slideTime := jsParseIntOr ds.time 5000
  let startIndex := jsParseIntOr ds.startIndex 1
  let slideIndex := (max 1 (min startIndex (totalSlides : Int))).toNat
  { slideTime := slideTime
    totalSlides := totalSlides
    loopingEnabled := ds.enableLooping ≠ some "false"
    transitionType := ds.transition.getD .instant
    slideIndex := slideIndex
    currentSlideIndex := slideIndex
    isPaused := ds.static = some "true"
    isVisible := true
    autoSlideActive := false
    activeTransition := none }

/-- SlideshowCore.stopAutoSlide: clears the interval and dispatches
autoSlideStopped, but only if a timer was armed. -/
def stopAutoSlide (s : SystemState) : SystemState × List Event :=
  if s.autoSlideActive then
    ({ s with autoSlideActive := false }, [Event.autoSlideStopped])
  else
    (s, [])

/-- SlideshowCore.startAutoSlide: first stops any existing timer, then
arms a repeating timer and dispatches autoSlideStarted only when
slideTime is positive, the slideshow is not paused and it is visible. -/
def startAutoSlide (s : SystemState) : SystemState × List Event :=
  let r := stopAutoSlide s
  if r.1.slideTime > 0 && !r.1.isPaused && r.1.isVisible then
    ({ r.1 with autoSlideActive := true }, r.2 ++ [Event.autoSlideStarted])
  else
    r

/-- SlideshowCore.updateAccessibilityAttributes: updates per-slide DOM
attributes (not modelled) and dispatches slideChanged with the current
slideIndex and totalSlides. -/
def updateAccessibilityAttributes (s : SystemState) : SystemState × List Event :=
  (s, [Event.slideChanged s.slideIndex s.totalSlides])

/-- SlideshowTransitions.cleanupActiveTransition: clears the fallback
timeout, removes the transitionend listener and drops the job. -/
def cleanupActiveTransition (s : SystemState) : SystemState :=
  { s with activeTransition := none }

/-- SlideshowTransitions.onTransitionComplete: cleans up the active
transition, then dispatches transitionComplete with the core slide index
and the transition kind.  The core registered a synchronous listener for
this event in init() that runs updateAccessibilityAttributes (which
dispatches slideChanged) and adjustHeight. -/
def onTransitionComplete (s : SystemState) : SystemState × List Event :=
  let s₁ := cleanupActiveTransition s
  let r := updateAccessibilityAttributes s₁
  (r.1, Event.transitionComplete s₁.slideIndex s₁.transitionType :: r.2)

/-- SlideshowTransitions.performTransition: cleans up any active
transition, returns early when the incoming slide does not exist, then
routes instant to transitionInstant (which immediately calls
onTransitionComplete) and every crossfade variant through
applyCrossfadeTransition to setupTransitionCompletion, which arms the
fallback timeout and attaches the transitionend listener. -/
def performTransition (s : SystemState) (fromIndex toIndex : Nat) :
    SystemState × List Event :=
  let s₁ := cleanupActiveTransition s
  if 1 ≤ toIndex ∧ toIndex ≤ s₁.totalSlides then
    match s₁.transitionType with
    | .instant => onTransitionComplete s₁
    | _ => ({ s₁ with activeTransition := some freshJob }, [])
  else
    (s₁, [])

/-- SlideshowCore.updateSlideVisibility on the wired system: dispatches
slideChanging {fromIndex = currentSlideIndex, toIndex = slideIndex};
the transitions module listener synchronously runs performTransition;
then currentSlideIndex is updated, and for the instant kind
updateAccessibilityAttributes runs immediately. -/
def updateSlideVisibility (s : SystemState) : SystemState × List Event :=
  let previousIndex := s.currentSlideIndex
  let newIndex := s.slideIndex
  let r₁ := performTransition s previousIndex newIndex
  let s₂ := { r₁.1 with currentSlideIndex := newIndex }
  if s₂.transitionType = .instant then
    let r₂ := updateAccessibilityAttributes s₂
    (r₂.1, Event.slideChanging previousIndex newIndex :: (r₁.2 ++ r₂.2))
  else
    (s₂, Event.slideChanging previousIndex newIndex :: r₁.2)

/-- SlideshowCore.nextSlide: with looping the new index is the 1-based
modulo successor (slideIndex % totalSlides) + 1; without looping the
index increments below the last slide, and at the last slide the call
only stops the autoplay timer and returns. -/
def nextSlide (s : SystemState) : SystemState × List Event :=
  if s.loopingEnabled then
    updateSlideVisibility { s with slideIndex := s.slideIndex % s.totalSlides + 1 }
  else if s.slideIndex < s.totalSlides then
    updateSlideVisibility { s with slideIndex := s.slideIndex + 1 }
  else
    stopAutoSlide s

/-- SlideshowCore.prevSlide: with looping index 1 wraps to totalSlides and
otherwise the index decrements; without looping the index decrements
above 1, and at index 1 the call returns without any effect. -/
def prevSlide (s : SystemState) : SystemState × List Event :=
  if s.loopingEnabled then
    updateSlideVisibility
      { s with slideIndex := if s.slideIndex = 1 then s.totalSlides else s.slideIndex - 1 }
  else if s.slideIndex > 1 then
    updateSlideVisibility { s with slideIndex := s.slideIndex - 1 }
  else
    (s, [])

/-- SlideshowCore.goToSlide: when 1 <= index <= totalSlides the index is
stored and updateSlideVisibility runs; otherwise the call does nothing. -/
def goToSlide (s : SystemState) (index : Int) : SystemState × List Event :=
  if 1 ≤ index ∧ index ≤ (s.totalSlides : Int) then
    updateSlideVisibility { s with slideIndex := index.toNat }
  else
    (s, [])

/-- A tick of the autoplay interval timer: fires only while the timer is
armed, and invokes nextSlide. -/
def autoTick (s : SystemState) : SystemState × List Event :=
  if s.autoSlideActive then nextSlide s else (s, [])

/-- SlideshowCore.togglePause: flips the paused flag, dispatches
pauseToggled with the new value, then stops or starts the autoplay
timer. -/
def togglePause (s : SystemState) : SystemState × List Event :=
  let s₁ := { s with isPaused := !s.isPaused }
  let r := if s₁.isPaused then stopAutoSlide s₁ else startAutoSlide s₁
  (r.1, Event.pauseToggled s₁.isPaused :: r.2)

/-- SlideshowCore.setVisibility: stores the element-visible flag, then
starts the autoplay timer when visible and not paused and stops it
otherwise. -/
def setVisibility (s : SystemState) (visible : Bool) : SystemState × List Event :=
  let s₁ := { s with isVisible := visible }
  if visible && !s₁.isPaused then startAutoSlide s₁ else stopAutoSlide s₁

/-- The default drag threshold set by the SlideshowEvents constructor
(this.dragThreshold = 40). -/
def defaultDragThreshold : ℚ := 40

/-- SlideshowEvents.processSwipeGesture: deltaX = endX - startX and
deltaY = |endY - startY|; when |deltaX| exceeds the drag threshold and
deltaY stays below 1.5 times the threshold, positive deltaX runs
prevSlide and non-positive deltaX runs nextSlide, followed by
startAutoSlide and a swipe event; otherwise nothing happens.
Coordinates are modelled as rationals (clientX and clientY are doubles). -/
def processSwipeGesture (s : SystemState)
    (dragThreshold startX startY endX endY : ℚ) : SystemState × List Event :=
  let deltaX := endX - startX
  let deltaY := |endY - startY|
  if |deltaX| > dragThreshold ∧ deltaY < dragThreshold * 1.5 then
    let r₁ := if deltaX > 0 then prevSlide s else nextSlide s
    let r₂ := startAutoSlide r₁.1
    (r₂.1, r₁.2 ++ r₂.2 ++ [Event.swipe (decide (deltaX > 0)) |deltaX|])
  else
    (s, [])

/-- The swipeEnabled guard of handlePointerUp and handleTouchEnd: when
swipe is disabled by configuration the gesture is ignored entirely. -/
def pointerUpGesture (swipeEnabled : Bool) (s : SystemState)
    (dragThreshold startX startY endX endY : ℚ) : SystemState × List Event :=
  if swipeEnabled then
    processSwipeGesture s dragThreshold startX startY endX endY
  else
    (s, [])

/-- The asynchronous triggers that can reach an armed transition job: the
fallback setTimeout firing, a transitionend event for the opacity
property on the watched element, and a transitionend event for any other
property or target (which the listener ignores). -/
inductive Trigger where
  | timeoutFire
  | transitionEndOpacity
  | transitionEndOther
deriving DecidableEq, Repr

/-- Whether a trigger can complete a transition. -/
def effectiveTrigger : Trigger → Bool
  | .timeoutFire => true
  | .transitionEndOpacity => true
  | .transitionEndOther => false

/-- The cleanup closure of setupTransitionCompletion: a no-op once
transitionEnded is set; otherwise it sets the flag, removes the
transitionend listener and runs onTransitionComplete. -/
def jobCleanup (s : SystemState) : SystemState × List Event :=
  match s.activeTransition with
  | none => (s, [])
  | some j =>
    if j.transitionEnded then
      (s, [])
    else
      let j' : TransitionJob :=
        { j with transitionEnded := true, listenerAttached := false }
      onTransitionComplete { s with activeTransition := some j' }

/-- Delivery of one asynchronous trigger: a cleared timeout and a removed
listener can no longer fire, and a transitionend for a property other
than opacity is ignored by the listener guard. -/
def fireTrigger (s : SystemState) : Trigger → SystemState × List Event
  | .timeoutFire =>
    match s.activeTransition with
    | some j => if j.timeoutArmed then jobCleanup s else (s, [])
    | none => (s, [])
  | .transitionEndOpacity =>
    match s.activeTransition with
    | some j => if j.listenerAttached then jobCleanup s else (s, [])
    | none => (s, [])
  | .transitionEndOther => (s, [])

/-- Delivery of a sequence of asynchronous triggers, accumulating the
event trace. -/
def runTriggers (s : SystemState) : List Trigger → SystemState × List Event
  | [] => (s, [])
  | t :: ts =>
    let r₁ := fireTrigger s t
    let r₂ := runTriggers r₁.1 ts
    (r₂.1, r₁.2 ++ r₂.2)

/-- Number of slideChanged events in a trace. -/
def countSlideChanged (evs : List Event) : Nat :=
  evs.countP fun e => match e with
    | Event.slideChanged _ _ => true
    | _ => false

/-- Number of transitionComplete events in a trace. -/
def countTransitionComplete (evs : List Event) : Nat :=
  evs.countP fun e => match e with
    | Event.transitionComplete _ _ => true
    | _ => false

/-- The transition job left behind by updateSlideVisibility: none for the
instant kind (the transition completed synchronously), a freshly armed
job for a crossfade kind with an existing incoming slide, and none when
the incoming slide does not exist. -/
def postJob (s : SystemState) : Option TransitionJob :=
  if s.transitionType = .instant then none
  else if 1 ≤ s.slideIndex ∧ s.slideIndex ≤ s.totalSlides then some freshJob
  else none

/-- The guard of startAutoSlide: positive interval, not paused, visible. -/
def mayAutoplay (s : SystemState) : Bool :=
  decide (s.slideTime > 0) && !s.isPaused && s.isVisible

theorem stopAutoSlide_fst (s : SystemState) :
    (stopAutoSlide s).1 = { s with autoSlideActive := false } := by
  unfold stopAutoSlide
  split
  · rfl
  · next h =>
    rcases s with ⟨st, tot, lo, tt, si, ci, pz, vz, az, tr⟩
    simp_all

theorem startAutoSlide_fst (s : SystemState) :
    (startAutoSlide s).1 = { s with autoSlideActive := mayAutoplay s } := by
  rcases s with ⟨st, tot, lo, tt, si, ci, pz, vz, az, tr⟩
  unfold startAutoSlide mayAutoplay
  simp only [stopAutoSlide_fst]
  split
  · next h => simp_all
  · next h =>
    simp only [stopAutoSlide_fst]
    have h' : (decide ((st : Int) > 0) && !pz && vz) = false := by
      revert h
      cases decide ((st : Int) > 0) <;> cases pz <;> cases vz <;> simp
    simp_all

theorem onTransitionComplete_fst (s : SystemState) :
    (onTransitionComplete s).1 = { s with activeTransition := none } := rfl

theorem onTransitionComplete_snd (s : SystemState) :
    (onTransitionComplete s).2 =
      [Event.transitionComplete s.slideIndex s.transitionType,
       Event.slideChanged s.slideIndex s.totalSlides] := rfl

theorem updateSlideVisibility_fst (s : SystemState) :
    (updateSlideVisibility s).1 =
      { s with currentSlideIndex := s.slideIndex, activeTransition := postJob s } := by
  unfold updateSlideVisibility performTransition cleanupActiveTransition
    onTransitionComplete updateAccessibilityAttributes postJob
  rcases s with ⟨st, tot, lo, tt, si, ci, pz, vz, az, tr⟩
  cases tt <;> simp <;> split <;> rfl

theorem updateSlideVisibility_snd (s : SystemState) :
    (updateSlideVisibility s).2 =
      if 1 ≤ s.slideIndex ∧ s.slideIndex ≤ s.totalSlides then
        (if s.transitionType = .instant then
          [Event.slideChanging s.currentSlideIndex s.slideIndex,
           Event.transitionComplete s.slideIndex .instant,
           Event.slideChanged s.slideIndex s.totalSlides,
           Event.slideChanged s.slideIndex s.totalSlides]
        else [Event.slideChanging s.currentSlideIndex s.slideIndex])
      else
        (if s.transitionType = .instant then
          [Event.slideChanging s.currentSlideIndex s.slideIndex,
           Event.slideChanged s.slideIndex s.totalSlides]
        else [Event.slideChanging s.currentSlideIndex s.slideIndex]) := by
  unfold updateSlideVisibility performTransition cleanupActiveTransition
    onTransitionComplete updateAccessibilityAttributes
  rcases s with ⟨st, tot, lo, tt, si, ci, pz, vz, az, tr⟩
  cases tt <;> simp <;> split <;> rfl

theorem performTransition_crossfade (s : SystemState) (fromIndex toIndex : Nat)
    (hcf : s.transitionType.isCrossfade = true)
    (hin : 1 ≤ toIndex ∧ toIndex ≤ s.totalSlides) :
    performTransition s fromIndex toIndex =
      ({ s with activeTransition := some freshJob }, []) := by
  unfold performTransition cleanupActiveTransition
  rcases s with ⟨st, tot, lo, tt, si, ci, pz, vz, az, tr⟩
  cases tt <;> simp_all [TransitionType.isCrossfade]

theorem fireTrigger_noJob {s : SystemState} (h : s.activeTransition = none)
    (t : Trigger) : fireTrigger s t = (s, []) := by
  cases t <;> simp [fireTrigger, h]

theorem runTriggers_noJob {s : SystemState} (h : s.activeTransition = none)
    (ts : List Trigger) : runTriggers s ts = (s, []) := by
  induction ts with
  | nil => rfl
  | cons t ts ih => simp [runTriggers, fireTrigger_noJob h, ih]

theorem fireTrigger_armed_effective {s : SystemState}
    (h : s.activeTransition = some freshJob) {t : Trigger}
    (ht : effectiveTrigger t = true) :
    fireTrigger s t =
      ({ s with activeTransition := none },
       [Event.transitionComplete s.slideIndex s.transitionType,
        Event.slideChanged s.slideIndex s.totalSlides]) := by
  cases t
  · simp [fireTrigger, h, freshJob, jobCleanup, onTransitionComplete,
      cleanupActiveTransition, updateAccessibilityAttributes]
  · simp [fireTrigger, h, freshJob, jobCleanup, onTransitionComplete,
      cleanupActiveTransition, updateAccessibilityAttributes]
  · simp [effectiveTrigger] at ht

/-- Running any sequence of triggers against a freshly armed transition
job: if the sequence contains an effective trigger (the fallback timeout
or an opacity transitionend), the trace is exactly one transitionComplete
followed by one slideChanged and the job is disarmed; otherwise nothing
happens at all. -/
theorem runTriggers_armed {s : SystemState}
    (h : s.activeTransition = some freshJob) (ts : List Trigger) :
    (ts.any effectiveTrigger = true →
       runTriggers s ts =
         ({ s with activeTransition := none },
          [Event.transitionComplete s.slideIndex s.transitionType,
           Event.slideChanged s.slideIndex s.totalSlides])) ∧
    (ts.any effectiveTrigger = false → runTriggers s ts = (s, [])) := by
  induction ts with
  | nil => simp [runTriggers]
  | cons t ts ih =>
    by_cases het : effectiveTrigger t = true
    · have hfire := fireTrigger_armed_effective h het
      have hrest :
          runTriggers { s with activeTransition := none } ts =
            ({ s with activeTransition := none }, []) :=
        runTriggers_noJob rfl ts
      constructor
      · intro _
        simp [runTriggers, hfire, hrest]
      · intro hany
        simp [List.any_cons, het] at hany
    · have hf : effectiveTrigger t = false := by
        cases hb : effectiveTrigger t <;> simp_all
      have hto : t = .transitionEndOther := by
        cases t <;> simp_all [effectiveTrigger]
      subst hto
      have hskip : runTriggers s (Trigger.transitionEndOther :: ts) =
          runTriggers s ts := by
        simp [runTriggers, fireTrigger]
      rw [hskip]
      constructor
      · intro hany
        simp only [List.any_cons, hf, Bool.false_or] at hany
        exact ih.1 hany
      · intro hany
        simp only [List.any_cons, hf, Bool.false_or] at hany
        exact ih.2 hany

/-- The index invariant: at least one slide, and the current 1-based
slide index within [1, totalSlides]. -/
def GoodIdx (s : SystemState) : Prop :=
  1 ≤ s.totalSlides ∧ 1 ≤ s.slideIndex ∧ s.slideIndex ≤ s.totalSlides

theorem goodIdx_construct (ds : Dataset) (n : Nat) (h : 1 ≤ n) :
    GoodIdx (construct ds n) := by
  refine ⟨h, ?_, ?_⟩ <;> simp only [construct] <;> omega

theorem goodIdx_updateSlideVisibility {s : SystemState} (h : GoodIdx s) :
    GoodIdx (updateSlideVisibility s).1 := by
  rw [updateSlideVisibility_fst]
  exact h

theorem goodIdx_nextSlide {s : SystemState} (h : GoodIdx s) :
    GoodIdx (nextSlide s).1 := by
  obtain ⟨h1, h2, h3⟩ := h
  unfold nextSlide
  split
  · refine goodIdx_updateSlideVisibility ⟨h1, ?_, ?_⟩
    · show 1 ≤ s.slideIndex % s.totalSlides + 1
      omega
    · show s.slideIndex % s.totalSlides + 1 ≤ s.totalSlides
      have := Nat.mod_lt s.slideIndex (show 0 < s.totalSlides by omega)
      omega
  · split
    · next hlt =>
      refine goodIdx_updateSlideVisibility ⟨h1, ?_, ?_⟩
      · show 1 ≤ s.slideIndex + 1
        omega
      · show s.slideIndex + 1 ≤ s.totalSlides
        omega
    · rw [stopAutoSlide_fst]
      exact ⟨h1, h2, h3⟩

theorem goodIdx_prevSlide {s : SystemState} (h : GoodIdx s) :
    GoodIdx (prevSlide s).1 := by
  obtain ⟨h1, h2, h3⟩ := h
  unfold prevSlide
  split
  · refine goodIdx_updateSlideVisibility ⟨h1, ?_, ?_⟩
    · show 1 ≤ (if s.slideIndex = 1 then s.totalSlides else s.slideIndex - 1)
      split <;> omega
    · show (if s.slideIndex = 1 then s.totalSlides else s.slideIndex - 1) ≤ s.totalSlides
      split <;> omega
  · split
    · next hgt =>
      refine goodIdx_updateSlideVisibility ⟨h1, ?_, ?_⟩
      · show 1 ≤ s.slideIndex - 1
        omega
      · show s.slideIndex - 1 ≤ s.totalSlides
        omega
    · exact ⟨h1, h2, h3⟩

theorem goodIdx_goToSlide {s : SystemState} (h : GoodIdx s) (n : Int) :
    GoodIdx (goToSlide s n).1 := by
  obtain ⟨h1, h2, h3⟩ := h
  unfold goToSlide
  split
  · next hr =>
    refine goodIdx_updateSlideVisibility ⟨h1, ?_, ?_⟩
    · show 1 ≤ n.toNat
      omega
    · show n.toNat ≤ s.totalSlides
      omega
  · exact ⟨h1, h2, h3⟩

theorem goodIdx_stopAutoSlide {s : SystemState} (h : GoodIdx s) :
    GoodIdx (stopAutoSlide s).1 := by
  rw [stopAutoSlide_fst]
  exact h

theorem goodIdx_startAutoSlide {s : SystemState} (h : GoodIdx s) :
    GoodIdx (startAutoSlide s).1 := by
  rw [startAutoSlide_fst]
  exact h

theorem goodIdx_autoTick {s : SystemState} (h : GoodIdx s) :
    GoodIdx (autoTick s).1 := by
  unfold autoTick
  split
  · exact goodIdx_nextSlide h
  · exact h

theorem goodIdx_togglePause {s : SystemState} (h : GoodIdx s) :
    GoodIdx (togglePause s).1 := by
  simp only [togglePause]
  split
  · exact goodIdx_stopAutoSlide h
  · exact goodIdx_startAutoSlide h

theorem goodIdx_setVisibility {s : SystemState} (h : GoodIdx s) (v : Bool) :
    GoodIdx (setVisibility s v).1 := by
  simp only [setVisibility]
  split
  · exact goodIdx_startAutoSlide h
  · exact goodIdx_stopAutoSlide h

theorem goodIdx_processSwipeGesture {s : SystemState} (h : GoodIdx s)
    (dragThreshold startX startY endX endY : ℚ) :
    GoodIdx (processSwipeGesture s dragThreshold startX startY endX endY).1 := by
  simp only [processSwipeGesture]
  split
  · split
    · exact goodIdx_startAutoSlide (goodIdx_prevSlide h)
    · exact goodIdx_startAutoSlide (goodIdx_nextSlide h)
  · exact h

theorem goodIdx_jobCleanup {s : SystemState} (h : GoodIdx s) :
    GoodIdx (jobCleanup s).1 := by
  unfold jobCleanup
  rcases hat : s.activeTransition with _ | j <;> simp only [hat]
  · exact h
  · split
    · exact h
    · rw [onTransitionComplete_fst]
      exact h

theorem goodIdx_fireTrigger {s : SystemState} (h : GoodIdx s) (t : Trigger) :
    GoodIdx (fireTrigger s t).1 := by
  cases t
  · rcases hat : s.activeTransition with _ | j
    · simp only [fireTrigger, hat]
      exact h
    · simp only [fireTrigger, hat]
      split
      · exact goodIdx_jobCleanup h
      · exact h
  · rcases hat : s.activeTransition with _ | j
    · simp only [fireTrigger, hat]
      exact h
    · simp only [fireTrigger, hat]
      split
      · exact goodIdx_jobCleanup h
      · exact h
  · exact h

/-- A slideshow state reachable from construction through the public
operations of the wired system: navigation, autoplay ticks, pause
toggling, visibility changes, timer control, swipe gestures, and
asynchronous transition triggers. -/
inductive Reachable : SystemState → Prop where
  | init (ds : Dataset) (totalSlides : Nat) (h : 1 ≤ totalSlides) :
      Reachable (construct ds totalSlides)
  | next {s : SystemState} : Reachable s → Reachable (nextSlide s).1
  | prev {s : SystemState} : Reachable s → Reachable (prevSlide s).1
  | goTo {s : SystemState} (n : Int) : Reachable s → Reachable (goToSlide s n).1
  | tick {s : SystemState} : Reachable s → Reachable (autoTick s).1
  | pause {s : SystemState} : Reachable s → Reachable (togglePause s).1
  | vis {s : SystemState} (v : Bool) : Reachable s → Reachable (setVisibility s v).1
  | startTimer {s : SystemState} : Reachable s → Reachable (startAutoSlide s).1
  | stopTimer {s : SystemState} : Reachable s → Reachable (stopAutoSlide s).1
  | gesture {s : SystemState} (dragThreshold startX startY endX endY : ℚ) :
      Reachable s →
      Reachable (processSwipeGesture s dragThreshold startX startY endX endY).1
  | trig {s : SystemState} (t : Trigger) : Reachable s → Reachable (fireTrigger s t).1

/-- A sample configuration: five slides, 5000 ms interval, defaults for
everything else, instant transitions. -/
def sampleDataset : Dataset :=
  { time := some 5000, startIndex := some 1, enableLooping := none,
    static := none, transition := some .instant }

/-- The sample instant-kind slideshow state right after construction. -/
def sampleInstant : SystemState := construct sampleDataset 5

/-- A sample crossfade configuration (crossfade-classic, 600 ms). -/
def sampleCrossfadeDataset : Dataset :=
  { time := some 5000, startIndex := some 1, enableLooping := none,
    static := none, transition := some .crossfadeClassic }

/-- The sample crossfade slideshow state right after construction. -/
def sampleCrossfade : SystemState := construct sampleCrossfadeDataset 5

theorem goToSlide_inRange (s : SystemState) (n : Int)
    (h1 : 1 ≤ n) (h2 : n ≤ (s.totalSlides : Int)) :
    goToSlide s n = updateSlideVisibility { s with slideIndex := n.toNat } := by
  unfold goToSlide
  rw [if_pos ⟨h1, h2⟩]

/-- C3: for every configuration with at least one slide, the 1-based
current slide index stays within [1, totalSlides]: construction clamps
the configured start index into range, and every reachable state - under
any sequence of navigation calls, autoplay ticks, pause toggles,
visibility changes, timer operations, swipe gestures and transition
triggers, with either looping policy - keeps the bound. -/
theorem reachable_slideIndex_in_bounds (s : SystemState) (h : Reachable s) :
    1 ≤ s.totalSlides ∧ 1 ≤ s.slideIndex ∧ s.slideIndex ≤ s.totalSlides := by
  induction h with
  | init ds totalSlides h0 => exact goodIdx_construct ds totalSlides h0
  | next _ ih => exact goodIdx_nextSlide ih
  | prev _ ih => exact goodIdx_prevSlide ih
  | goTo n _ ih => exact goodIdx_goToSlide ih n
  | tick _ ih => exact goodIdx_autoTick ih
  | pause _ ih => exact goodIdx_togglePause ih
  | vis v _ ih => exact goodIdx_setVisibility ih v
  | startTimer _ ih => exact goodIdx_startAutoSlide ih
  | stopTimer _ ih => exact goodIdx_stopAutoSlide ih
  | gesture d sx sy ex ey _ ih => exact goodIdx_processSwipeGesture ih d sx sy ex ey
  | trig t _ ih => exact goodIdx_fireTrigger ih t

/-- Witness for C3 at a concrete reachable state (two navigation steps
and a pause toggle after construction). -/
theorem reachable_slideIndex_in_bounds_witness :
    1 ≤ (togglePause (prevSlide (nextSlide sampleInstant).1).1).1.totalSlides ∧
    1 ≤ (togglePause (prevSlide (nextSlide sampleInstant).1).1).1.slideIndex ∧
    (togglePause (prevSlide (nextSlide sampleInstant).1).1).1.slideIndex ≤
      (togglePause (prevSlide (nextSlide sampleInstant).1).1).1.totalSlides :=
  reachable_slideIndex_in_bounds _
    (Reachable.pause (Reachable.prev (Reachable.next
      (Reachable.init sampleDataset 5 (by decide)))))

/-- C4: goToSlide with an in-range 1-based target lands exactly on that
index; with an out-of-range target the call is a silent no-op that
returns the state unchanged and dispatches nothing (and, being a total
function, raises no error). -/
theorem goToSlide_spec (s : SystemState) (n : Int) :
    ((1 ≤ n ∧ n ≤ (s.totalSlides : Int)) →
       ((goToSlide s n).1.slideIndex : Int) = n) ∧
    (¬(1 ≤ n ∧ n ≤ (s.totalSlides : Int)) → goToSlide s n = (s, [])) := by
  constructor
  · intro hr
    rw [goToSlide_inRange s n hr.1 hr.2, updateSlideVisibility_fst]
    show ((n.toNat : Nat) : Int) = n
    omega
  · intro hr
    unfold goToSlide
    rw [if_neg hr]

/-- Witness for C4: in the sample state, goToSlide 3 lands on 3 and
goToSlide 99 is a silent no-op. -/
theorem goToSlide_spec_witness :
    ((goToSlide sampleInstant 3).1.slideIndex : Int) = 3 ∧
    goToSlide sampleInstant 99 = (sampleInstant, []) :=
  ⟨(goToSlide_spec sampleInstant 3).1 (by decide),
   (goToSlide_spec sampleInstant 99).2 (by decide)⟩

theorem mod_succ_cycle (k n : Nat) (h : 1 ≤ n) :
    (k % n + 1) % n = (k + 1) % n := by
  rcases Nat.lt_or_ge 1 n with h1 | h1
  · conv_rhs => rw [Nat.add_mod]
    rw [Nat.mod_eq_of_lt h1]
  · have hn : n = 1 := by omega
    subst hn
    simp

theorem nextSlide_loop_slideIndex {s : SystemState} (h : s.loopingEnabled = true) :
    (nextSlide s).1.slideIndex = s.slideIndex % s.totalSlides + 1 := by
  unfold nextSlide
  rw [if_pos h, updateSlideVisibility_fst]

theorem nextSlide_totalSlides (s : SystemState) :
    (nextSlide s).1.totalSlides = s.totalSlides := by
  unfold nextSlide
  split
  · rw [updateSlideVisibility_fst]
  · split
    · rw [updateSlideVisibility_fst]
    · rw [stopAutoSlide_fst]

theorem nextSlide_loopingEnabled (s : SystemState) :
    (nextSlide s).1.loopingEnabled = s.loopingEnabled := by
  unfold nextSlide
  split
  · rw [updateSlideVisibility_fst]
  · split
    · rw [updateSlideVisibility_fst]
    · rw [stopAutoSlide_fst]

theorem nextSlide_iterate_index {s : SystemState} (hloop : s.loopingEnabled = true)
    (ht : 1 ≤ s.totalSlides) (h1 : s.slideIndex = 1) (k : Nat) :
    ((fun t => (nextSlide t).1)^[k] s).slideIndex = k % s.totalSlides + 1 ∧
    ((fun t => (nextSlide t).1)^[k] s).totalSlides = s.totalSlides ∧
    ((fun t => (nextSlide t).1)^[k] s).loopingEnabled = true := by
  induction k with
  | zero =>
    refine ⟨?_, rfl, hloop⟩
    simp [h1]
  | succ k ih =>
    obtain ⟨i1, i2, i3⟩ := ih
    rw [Function.iterate_succ_apply']
    refine ⟨?_, ?_, ?_⟩
    · rw [nextSlide_loop_slideIndex i3, i1, i2, mod_succ_cycle k s.totalSlides ht]
    · rw [nextSlide_totalSlides, i2]
    · rw [nextSlide_loopingEnabled, i3]

/-- C5: with looping enabled, nextSlide computes the new index by the
1-based modulo formula (index % total) + 1, wraps from the last slide to
index 1, and applied exactly total times starting from index 1 returns
the index to 1. -/
theorem nextSlide_looping_spec (s : SystemState)
    (hloop : s.loopingEnabled = true) (ht : 1 ≤ s.totalSlides) :
    (nextSlide s).1.slideIndex = s.slideIndex % s.totalSlides + 1 ∧
    (s.slideIndex = s.totalSlides → (nextSlide s).1.slideIndex = 1) ∧
    (s.slideIndex = 1 →
      ((fun t => (nextSlide t).1)^[s.totalSlides] s).slideIndex = 1) := by
  refine ⟨nextSlide_loop_slideIndex hloop, ?_, ?_⟩
  · intro hlast
    rw [nextSlide_loop_slideIndex hloop, hlast, Nat.mod_self]
  · intro h1
    obtain ⟨i1, -, -⟩ := nextSlide_iterate_index hloop ht h1 s.totalSlides
    rw [i1, Nat.mod_self]

/-- Witness for C5: five slides, looping, starting at index 1; the wrap
formula holds, and from index 5 a single nextSlide wraps to 1. -/
theorem nextSlide_looping_spec_witness :
    (nextSlide sampleInstant).1.slideIndex =
      sampleInstant.slideIndex % sampleInstant.totalSlides + 1 ∧
    ((fun t => (nextSlide t).1)^[sampleInstant.totalSlides]
        sampleInstant).slideIndex = 1 :=
  ⟨(nextSlide_looping_spec sampleInstant (by decide) (by decide)).1,
   (nextSlide_looping_spec sampleInstant (by decide) (by decide)).2.2 (by decide)⟩

/-- Three slides, looping disabled, starting at the last slide, with the
autoplay timer armed by startAutoSlide. -/
def noLoopLast : SystemState :=
  (startAutoSlide (construct
    { time := some 5000, startIndex := some 3, enableLooping := some "false",
      static := none, transition := some .instant } 3)).1

/-- Three slides, looping disabled, at the first slide. -/
def noLoopFirst : SystemState :=
  construct
    { time := some 5000, startIndex := some 1, enableLooping := some "false",
      static := none, transition := some .instant } 3

/-- C6: with looping disabled, nextSlide at the last slide equals a bare
stopAutoSlide call - the index is untouched, the autoplay timer ends up
cleared, and no slideChanging or slideChanged notification is dispatched;
prevSlide at index 1 returns the state unchanged with no events at all. -/
theorem noLooping_boundary_spec (s : SystemState)
    (hloop : s.loopingEnabled = false) :
    (s.slideIndex = s.totalSlides →
       nextSlide s = stopAutoSlide s ∧
       (nextSlide s).1.slideIndex = s.slideIndex ∧
       (nextSlide s).1.autoSlideActive = false ∧
       countSlideChanged (nextSlide s).2 = 0 ∧
       (Event.slideChanging s.currentSlideIndex s.slideIndex) ∉ (nextSlide s).2) ∧
    (s.slideIndex = 1 → prevSlide s = (s, [])) := by
  constructor
  · intro hlast
    have hne : nextSlide s = stopAutoSlide s := by
      unfold nextSlide
      rw [if_neg (by simp [hloop]), if_neg (by omega)]
    refine ⟨hne, ?_, ?_, ?_, ?_⟩
    · rw [hne, stopAutoSlide_fst]
    · rw [hne, stopAutoSlide_fst]
    · rw [hne]
      unfold stopAutoSlide
      split <;> simp [countSlideChanged]
    · rw [hne]
      unfold stopAutoSlide
      split <;> simp
  · intro hfirst
    unfold prevSlide
    rw [if_neg (by simp [hloop]), if_neg (by omega)]

/-- Witness for C6: three slides, looping disabled, at the last slide
with the autoplay timer running: nextSlide only stops the timer;
prevSlide at index 1 does nothing. -/
theorem noLooping_boundary_spec_witness :
    (nextSlide noLoopLast).1.slideIndex = noLoopLast.slideIndex ∧
    (nextSlide noLoopLast).1.autoSlideActive = false ∧
    countSlideChanged (nextSlide noLoopLast).2 = 0 ∧
    prevSlide noLoopFirst = (noLoopFirst, []) := by
  refine ⟨?_, ?_, ?_, ?_⟩
  · exact ((noLooping_boundary_spec noLoopLast rfl).1 rfl).2.1
  · exact ((noLooping_boundary_spec noLoopLast rfl).1 rfl).2.2.1
  · exact ((noLooping_boundary_spec noLoopLast rfl).1 rfl).2.2.2.1
  · exact (noLooping_boundary_spec noLoopFirst rfl).2 rfl

/-- C1 counterexample: in the wired system with instant transitions, one
successful nextSlide call dispatches slideChanged twice, not once: the
transitions module reacts to slideChanging by dispatching
transitionComplete synchronously, whose core listener runs
updateAccessibilityAttributes (first slideChanged), and
updateSlideVisibility then runs updateAccessibilityAttributes again on
the instant path (second slideChanged). -/
theorem nextSlide_instant_double_slideChanged :
    countSlideChanged (nextSlide sampleInstant).2 = 2 ∧
    countSlideChanged (nextSlide sampleInstant).2 ≠ 1 := by
  constructor <;> decide

/-- C1 amended: per successful navigation call (an in-range goToSlide),
the instant kind dispatches exactly two slideChanged notifications (both
synchronously), while a crossfade kind dispatches none synchronously and
exactly one when the armed transition fires its completion. -/
theorem navigation_slideChanged_count (s : SystemState) (n : Int)
    (h1 : 1 ≤ n) (h2 : n ≤ (s.totalSlides : Int)) :
    (s.transitionType = .instant →
       countSlideChanged (goToSlide s n).2 = 2) ∧
    (s.transitionType.isCrossfade = true →
       countSlideChanged (goToSlide s n).2 = 0 ∧
       (goToSlide s n).1.activeTransition = some freshJob ∧
       ∀ ts : List Trigger, ts.any effectiveTrigger = true →
         countSlideChanged (runTriggers (goToSlide s n).1 ts).2 = 1) := by
  have hrange : 1 ≤ n.toNat ∧ n.toNat ≤ s.totalSlides := by omega
  have hgo := goToSlide_inRange s n h1 h2
  constructor
  · intro hi
    rw [hgo, updateSlideVisibility_snd, if_pos hrange, if_pos hi]
    rfl
  · intro hcf
    have hni : ¬({ s with slideIndex := n.toNat } : SystemState).transitionType
        = .instant := by
      cases htt : s.transitionType <;>
        simp_all [TransitionType.isCrossfade]
    have harm : (goToSlide s n).1.activeTransition = some freshJob := by
      rw [hgo, updateSlideVisibility_fst]
      show postJob { s with slideIndex := n.toNat } = some freshJob
      unfold postJob
      rw [if_neg hni, if_pos hrange]
    refine ⟨?_, harm, ?_⟩
    · rw [hgo, updateSlideVisibility_snd, if_pos hrange, if_neg hni]
      rfl
    · intro ts hts
      rw [(runTriggers_armed harm ts).1 hts]
      rfl

/-- Witness for the amended C1: in-range navigation on the sample
instant state yields two slideChanged events; on the sample crossfade
state none synchronously and exactly one after the fallback timeout
fires. -/
theorem navigation_slideChanged_count_witness :
    countSlideChanged (goToSlide sampleInstant 2).2 = 2 ∧
    countSlideChanged (goToSlide sampleCrossfade 2).2 = 0 ∧
    countSlideChanged
      (runTriggers (goToSlide sampleCrossfade 2).1 [Trigger.timeoutFire]).2 = 1 := by
  refine ⟨?_, ?_, ?_⟩
  · exact (navigation_slideChanged_count sampleInstant 2
      (by decide) (by decide)).1 rfl
  · exact ((navigation_slideChanged_count sampleCrossfade 2
      (by decide) (by decide)).2 rfl).1
  · exact ((navigation_slideChanged_count sampleCrossfade 2
      (by decide) (by decide)).2 rfl).2.2 [Trigger.timeoutFire] rfl

/-- The container attributes of a slideshow whose autoplay interval is
configured as 0 milliseconds (data-time equal to 0), unpaused and with
instant transitions. -/
def zeroTimeDataset : Dataset :=
  { time := some 0, startIndex := some 1, enableLooping := none,
    static := none, transition := some .instant }

/-- C2 (code bug evaluated at the failing input): a configured autoplay
interval of 0 ms does not disable autoplay, because
parseInt(data-time, 10) || 5000 treats the parsed 0 as falsy and
substitutes the 5000 default; with the slideshow unpaused and visible,
startAutoSlide then arms the repeating timer (dispatching
autoSlideStarted) and the next timer tick advances the slide. -/
theorem configuredZeroInterval_arms_timer :
    (construct zeroTimeDataset 3).slideTime = 5000 ∧
    (startAutoSlide (construct zeroTimeDataset 3)).1.autoSlideActive = true ∧
    (startAutoSlide (construct zeroTimeDataset 3)).2 = [Event.autoSlideStarted] ∧
    (autoTick (startAutoSlide (construct zeroTimeDataset 3)).1).1.slideIndex = 2 :=
  ⟨rfl, rfl, rfl, rfl⟩

/-- C7: a crossfade transition started by performTransition (with an
existing incoming slide) arms exactly one job, and however the fallback
timeout and the transitionend listener subsequently race - in any order,
including both firing - the completion signal transitionComplete is
emitted exactly once and whatever remains of the pair is disarmed
(activeTransition is cleared, so neither can fire again). -/
theorem crossfade_completion_exactly_once (s : SystemState)
    (fromIndex toIndex : Nat) (hcf : s.transitionType.isCrossfade = true)
    (hin : 1 ≤ toIndex ∧ toIndex ≤ s.totalSlides) :
    (performTransition s fromIndex toIndex).1.activeTransition = some freshJob ∧
    ∀ ts : List Trigger,
      countTransitionComplete
        (runTriggers (performTransition s fromIndex toIndex).1 ts).2 ≤ 1 ∧
      (ts.any effectiveTrigger = true →
        countTransitionComplete
          (runTriggers (performTransition s fromIndex toIndex).1 ts).2 = 1 ∧
        (runTriggers (performTransition s fromIndex toIndex).1 ts).1.activeTransition
          = none) := by
  have hpt := performTransition_crossfade s fromIndex toIndex hcf hin
  have h1 : (performTransition s fromIndex toIndex).1 =
      { s with activeTransition := some freshJob } := by rw [hpt]
  rw [h1]
  refine ⟨rfl, ?_⟩
  intro ts
  have harm := runTriggers_armed
    (s := { s with activeTransition := some freshJob }) rfl ts
  cases hany : ts.any effectiveTrigger with
  | false =>
    rw [harm.2 hany]
    refine ⟨by simp [countTransitionComplete], ?_⟩
    intro hcontra
    simp [hany] at hcontra
  | true =>
    rw [harm.1 hany]
    exact ⟨by rfl, fun _ => ⟨rfl, rfl⟩⟩

/-- Witness for C7: on the sample crossfade state, performTransition arms
a job, and delivering both the transitionend and then the timeout yields
exactly one completion. -/
theorem crossfade_completion_exactly_once_witness :
    (performTransition sampleCrossfade 1 2).1.activeTransition = some freshJob ∧
    countTransitionComplete
      (runTriggers (performTransition sampleCrossfade 1 2).1
        [Trigger.transitionEndOpacity, Trigger.timeoutFire]).2 = 1 := by
  refine ⟨?_, ?_⟩
  · exact (crossfade_completion_exactly_once sampleCrossfade 1 2 rfl
      (by decide)).1
  · exact (((crossfade_completion_exactly_once sampleCrossfade 1 2 rfl
      (by decide)).2 [Trigger.transitionEndOpacity, Trigger.timeoutFire]).2 rfl).1

/-- C8: with swipe enabled, a gesture is classified as a swipe iff the
horizontal delta exceeds the drag threshold in magnitude and the
vertical deviation stays below 1.5 times the threshold; a negative delta
runs nextSlide and a positive delta runs prevSlide, each followed by
startAutoSlide and a swipe event; anything else is ignored. -/
theorem processSwipeGesture_spec (s : SystemState)
    (dragThreshold startX startY endX endY : ℚ) :
    (¬(|endX - startX| > dragThreshold ∧
        |endY - startY| < dragThreshold * 1.5) →
       processSwipeGesture s dragThreshold startX startY endX endY = (s, [])) ∧
    ((|endX - startX| > dragThreshold ∧ |endY - startY| < dragThreshold * 1.5) →
       (endX - startX < 0 →
          processSwipeGesture s dragThreshold startX startY endX endY =
            ((startAutoSlide (nextSlide s).1).1,
             (nextSlide s).2 ++ (startAutoSlide (nextSlide s).1).2 ++
               [Event.swipe false |endX - startX|])) ∧
       (endX - startX > 0 →
          processSwipeGesture s dragThreshold startX startY endX endY =
            ((startAutoSlide (prevSlide s).1).1,
             (prevSlide s).2 ++ (startAutoSlide (prevSlide s).1).2 ++
               [Event.swipe true |endX - startX|]))) ∧
    pointerUpGesture true s dragThreshold startX startY endX endY =
      processSwipeGesture s dragThreshold startX startY endX endY := by
  refine ⟨?_, ?_, rfl⟩
  · intro hnot
    simp only [processSwipeGesture]
    rw [if_neg hnot]
  · intro hcls
    constructor
    · intro hneg
      have hd : decide (endX - startX > 0) = false := by
        simp only [decide_eq_false_iff_not]
        exact not_lt.mpr hneg.le
      simp only [processSwipeGesture]
      rw [if_pos hcls]
      simp only [if_neg (not_lt.mpr hneg.le), hd]
    · intro hpos
      have hd : decide (endX - startX > 0) = true := by
        simp [hpos]
      simp only [processSwipeGesture]
      rw [if_pos hcls]
      simp only [if_pos hpos, hd]

/-- Witness for C8, the scenario fixed by the spec: threshold 40, start
at x = 100, end at x = 40 and 5 px of vertical deviation, so deltaX is
minus 60 and deltaY is 5: classified as a next swipe, so nextSlide runs,
then startAutoSlide, then the swipe event. -/
theorem processSwipeGesture_spec_witness :
    processSwipeGesture sampleInstant defaultDragThreshold 100 0 40 5 =
      ((startAutoSlide (nextSlide sampleInstant).1).1,
       (nextSlide sampleInstant).2 ++
         (startAutoSlide (nextSlide sampleInstant).1).2 ++
         [Event.swipe false 60]) := by
  have h := ((processSwipeGesture_spec sampleInstant defaultDragThreshold
      100 0 40 5).2.1
      ⟨by norm_num [defaultDragThreshold],
       by norm_num [defaultDragThreshold]⟩).1 (by norm_num)
  rw [show |(40 : ℚ) - 100| = 60 by norm_num] at h
  exact h

/-- C9: setVisibility stores the element-visible flag and only touches
the autoplay timer state: the timer can be armed only when the new flag
is true and the slideshow is not paused, and is cleared otherwise; the
slide index, the paused flag and every other field are unchanged. -/
theorem setVisibility_spec (s : SystemState) (v : Bool) :
    (setVisibility s v).1.isVisible = v ∧
    (setVisibility s v).1.slideIndex = s.slideIndex ∧
    (setVisibility s v).1.currentSlideIndex = s.currentSlideIndex ∧
    (setVisibility s v).1.isPaused = s.isPaused ∧
    (setVisibility s v).1.totalSlides = s.totalSlides ∧
    (setVisibility s v).1.slideTime = s.slideTime ∧
    (setVisibility s v).1.loopingEnabled = s.loopingEnabled ∧
    (setVisibility s v).1.transitionType = s.transitionType ∧
    (setVisibility s v).1.activeTransition = s.activeTransition ∧
    ((setVisibility s v).1.autoSlideActive = true →
       v = true ∧ s.isPaused = false) ∧
    (¬(v = true ∧ s.isPaused = false) →
       (setVisibility s v).1.autoSlideActive = false) := by
  simp only [setVisibility]
  split
  · next hcond =>
    rw [startAutoSlide_fst]
    simp only [Bool.and_eq_true, Bool.not_eq_true'] at hcond
    refine ⟨rfl, rfl, rfl, rfl, rfl, rfl, rfl, rfl, rfl, ?_, ?_⟩
    · exact fun _ => hcond
    · intro hn
      exact absurd hcond hn
  · next hcond =>
    rw [stopAutoSlide_fst]
    refine ⟨rfl, rfl, rfl, rfl, rfl, rfl, rfl, rfl, rfl, ?_, fun _ => rfl⟩
    intro hfalse
    simp at hfalse

/-- Witness for C9 at a concrete input: hiding the sample slideshow
leaves index and paused flag alone and clears the timer. -/
theorem setVisibility_spec_witness :
    (setVisibility sampleInstant false).1.isVisible = false ∧
    (setVisibility sampleInstant false).1.slideIndex =
      sampleInstant.slideIndex ∧
    (setVisibility sampleInstant false).1.isPaused = sampleInstant.isPaused ∧
    (setVisibility sampleInstant false).1.autoSlideActive = false := by
  obtain ⟨a, b, c, d, e, f, g, h, i, j, k⟩ :=
    setVisibility_spec sampleInstant false
  exact ⟨a, b, d, k (by simp)⟩

/-- C10: goToSlide targeting the current index is treated as a successful
navigation, not a no-op: it behaves exactly like any in-range navigation
(it equals updateSlideVisibility on the state), dispatches slideChanging
with fromIndex equal to toIndex, and on the instant path still dispatches
slideChanged even though the index value did not change. -/
theorem goToSlide_current_spec (s : SystemState)
    (h1 : 1 ≤ s.slideIndex) (h2 : s.slideIndex ≤ s.totalSlides)
    (hsync : s.currentSlideIndex = s.slideIndex) :
    goToSlide s (s.slideIndex : Int) = updateSlideVisibility s ∧
    (goToSlide s (s.slideIndex : Int)).2.head? =
      some (Event.slideChanging s.slideIndex s.slideIndex) ∧
    (s.transitionType = .instant →
       Event.slideChanged s.slideIndex s.totalSlides ∈
         (goToSlide s (s.slideIndex : Int)).2) := by
  have hz : ((s.slideIndex : Int)).toNat = s.slideIndex := by omega
  have e1 : goToSlide s (s.slideIndex : Int) = updateSlideVisibility s := by
    rw [goToSlide_inRange s _ (by exact_mod_cast h1) (by exact_mod_cast h2), hz]
  refine ⟨e1, ?_, ?_⟩
  · rw [e1, updateSlideVisibility_snd, if_pos ⟨h1, h2⟩]
    split <;> simp [hsync]
  · intro hi
    rw [e1, updateSlideVisibility_snd, if_pos ⟨h1, h2⟩, if_pos hi]
    simp

/-- Witness for C10: goToSlide 1 on the sample state (already at index
1) dispatches slideChanging 1 1 and proceeds as a normal navigation. -/
theorem goToSlide_current_spec_witness :
    goToSlide sampleInstant (sampleInstant.slideIndex : Int) =
      updateSlideVisibility sampleInstant ∧
    (goToSlide sampleInstant (sampleInstant.slideIndex : Int)).2.head? =
      some (Event.slideChanging sampleInstant.slideIndex
        sampleInstant.slideIndex) :=
  ⟨(goToSlide_current_spec sampleInstant (by decide) (by decide) rfl).1,
   (goToSlide_current_spec sampleInstant (by decide) (by decide) rfl).2.1⟩

end VVJS
